import Mathlib

/-!
Verification of the cart / checkout / notification lifecycle of the
quick-checkout-store marketplace.

The embedding models the client-visible store state as plain lists of rows.
Identifiers (user ids, product ids, order ids, seller ids) are strings, as in
the source where they are UUIDs.  Monetary amounts and quantities are integers
(the source uses JS numbers; all arithmetic the claims touch is additive and
multiplicative, no division or rounding).

Sources embedded:
 - the cart provider (addToCart, removeFromCart, updateQuantity, clearCart,
   cartCount, cartTotal);
 - the cash branch of handlePlaceOrder in the checkout page;
 - the notify-sellers serverless function (grouping of order items by seller
   and the per-seller notification insert);
 - the Stripe payment webhook handler.
-/

namespace QuickCheckout

/-- A row of the products table, restricted to the columns the embedded code
reads (id, name, price, and the owning seller). -/
structure Product where
  id : String
  name : String
  price : Int
  seller_id : String
deriving Repr, DecidableEq

/-- A cart line as loaded by the cart provider: the cart_items row joined with
its product. -/
structure CartItem where
  id : String
  product_id : String
  quantity : Int
  product : Product
deriving Repr, DecidableEq

/-- Result of a cart operation: the cart rows for the current user after the
operation (the provider reloads the cart from the store after every mutation,
so the client list equals the store's rows), together with whether a
destructive (error) toast was shown. -/
structure CartResult where
  cart : List CartItem
  errorReported : Bool
deriving Repr, DecidableEq

/-- removeFromCart: with no authenticated user it returns at once; otherwise it
deletes the rows matching (user, product) — the loaded cart holds exactly the
current user's rows, so the user filter is implicit — and reloads. -/
def removeFromCart (user : Option String) (productId : String)
    (cart : List CartItem) : CartResult :=
  match user with
  | none => ⟨cart, false⟩
  | some _ => ⟨cart.filter (fun item => !(item.product_id == productId)), false⟩

/-- updateQuantity: with no authenticated user it returns at once; with a
non-positive quantity it delegates to removeFromCart; otherwise it updates the
stored quantity of the rows matching (user, product) and reloads. -/
def updateQuantity (user : Option String) (productId : String) (quantity : Int)
    (cart : List CartItem) : CartResult :=
  match user with
  | none => ⟨cart, false⟩
  | some _ =>
    if quantity ≤ 0 then
      removeFromCart user productId cart
    else
      ⟨cart.map (fun item =>
         if item.product_id == productId then
           { item with quantity := quantity }
         else item), false⟩

/-- addToCart: with no authenticated user it shows a destructive toast and
performs no mutation.  If a line for the product exists it calls updateQuantity
with that line's quantity plus one; otherwise it inserts a row with quantity 1
(the store assigns the fresh row id, passed here as freshId, and the reload
joins the product from the products table; a product id absent from the
products table makes the insert fail on the foreign key, which the code
surfaces as an error toast with no mutation). -/
def addToCart (products : List Product) (user : Option String)
    (productId : String) (freshId : String) (cart : List CartItem) : CartResult :=
  match user with
  | none => ⟨cart, true⟩
  | some _ =>
    match cart.find? (fun item => item.product_id == productId) with
    | some existingItem =>
        updateQuantity user productId (existingItem.quantity + 1) cart
    | none =>
        match products.find? (fun p => p.id == productId) with
        | some p => ⟨cart ++ [⟨freshId, productId, 1, p⟩], false⟩
        | none => ⟨cart, true⟩

/-- clearCart: with no authenticated user it returns at once; otherwise it
deletes every row of the current user and sets the client list empty. -/
def clearCart (user : Option String) (cart : List CartItem) : CartResult :=
  match user with
  | none => ⟨cart, false⟩
  | some _ => ⟨[], false⟩

/-- cartCount, as in the source: reduce over the cart adding quantities. -/
def cartCount (cartItems : List CartItem) : Int :=
  cartItems.foldl (fun total item => total + item.quantity) 0

/-- cartTotal, as in the source: reduce over the cart adding price times
quantity. -/
def cartTotal (cartItems : List CartItem) : Int :=
  cartItems.foldl (fun total item => total + item.product.price * item.quantity) 0

/-- One cart-mutating call, for stating reachability of cart states. -/
inductive CartOp where
  | add (productId freshId : String)
  | update (productId : String) (quantity : Int)
  | remove (productId : String)
deriving Repr, DecidableEq

/-- Apply one cart operation, keeping only the resulting cart rows. -/
def applyOp (products : List Product) (user : Option String)
    (cart : List CartItem) : CartOp → List CartItem
  | .add pid fid => (addToCart products user pid fid cart).cart
  | .update pid q => (updateQuantity user pid q cart).cart
  | .remove pid => (removeFromCart user pid cart).cart

/-- Run a sequence of cart operations from a given cart state. -/
def runOps (products : List Product) (user : Option String) :
    List CartOp → List CartItem → List CartItem
  | [], cart => cart
  | op :: rest, cart => runOps products user rest (applyOp products user cart op)

/-- A row of the orders table, restricted to the columns the cash checkout
writes. -/
structure Order where
  id : String
  user_id : String
  total_amount : Int
  shipping_address : String
  payment_method : String
  status : String
deriving Repr, DecidableEq

/-- A row of the order_items table. -/
structure OrderItem where
  order_id : String
  product_id : String
  quantity : Int
  price : Int
deriving Repr, DecidableEq

/-- The slice of the persistent store the checkout touches, plus the list of
order ids for which the notify-sellers function was invoked. -/
structure Store where
  orders : List Order
  order_items : List OrderItem
  notified : List String
deriving Repr, DecidableEq

/-- Outcome of a checkout attempt: the store, the cart after the attempt,
whether the success toast / navigation happened, and whether the catch block
showed the failure toast. -/
structure CheckoutResult where
  store : Store
  cart : List CartItem
  success : Bool
  errorToast : Bool
deriving Repr, DecidableEq

/-- The cash (payment_method = "cash") branch of handlePlaceOrder in the
checkout page.  newOrderId is the id the store assigns to the inserted order
row.  orderInsertOk and itemsInsertOk inject the store's verdict on the two
writes: a rejected write throws into the catch block, which shows the failure
toast and performs no further action.  On the success path the function then
invokes notify-sellers with the new order's id (its result is not checked),
clears the cart, and reports success. -/
def placeCashOrder (user : Option String) (newOrderId : String)
    (shippingAddress : String) (orderInsertOk itemsInsertOk : Bool)
    (cart : List CartItem) (store : Store) : CheckoutResult :=
  match user with
  | none => ⟨store, cart, false, false⟩
  | some uid =>
    if orderInsertOk then
      let order : Order :=
        ⟨newOrderId, uid, cartTotal cart, shippingAddress, "cash", "pending"⟩
      let store₁ : Store := { store with orders := store.orders ++ [order] }
      if itemsInsertOk then
        let orderItems : List OrderItem := cart.map (fun item =>
          ⟨newOrderId, item.product_id, item.quantity, item.product.price⟩)
        let store₂ : Store :=
          { store₁ with order_items := store₁.order_items ++ orderItems }
        let store₃ : Store :=
          { store₂ with notified := store₂.notified ++ [newOrderId] }
        ⟨store₃, [], true, false⟩
      else ⟨store₁, cart, false, true⟩
    else ⟨store, cart, false, true⟩

/-- An order item as the notify-sellers function reads it: the order_items row
joined with its product's name and owning seller. -/
structure NotifItem where
  quantity : Int
  price : Int
  product_id : String
  product_name : String
  seller_id : String
deriving Repr, DecidableEq

/-- The order row as the notify-sellers function reads it, with its joined
order items. -/
structure OrderData where
  total_amount : Int
  shipping_address : String
  order_items : List NotifItem
deriving Repr, DecidableEq

/-- The per-product entry pushed into a seller's group: name, quantity and
price of one order item. -/
structure NotifEntry where
  name : String
  quantity : Int
  price : Int
deriving Repr, DecidableEq

/-- A row of the seller_notifications table. -/
structure SellerNotification where
  seller_id : String
  order_id : String
  message : String
  read : Bool
deriving Repr, DecidableEq

/-- The entry an order item contributes to its seller's group. -/
def entryOf (item : NotifItem) : NotifEntry :=
  ⟨item.product_name, item.quantity, item.price⟩

/-- One step of the grouping loop: push the entry onto the seller's existing
group, or start a new group at the end (JS Map insertion order). -/
def addToGroup (m : List (String × List NotifEntry)) (sellerId : String)
    (e : NotifEntry) : List (String × List NotifEntry) :=
  if m.any (fun p => p.1 == sellerId) then
    m.map (fun p => if p.1 == sellerId then (p.1, p.2 ++ [e]) else p)
  else
    m ++ [(sellerId, [e])]

/-- The grouping loop over the order items, carrying the map as an
association list. -/
def groupGo (m : List (String × List NotifEntry)) :
    List NotifItem → List (String × List NotifEntry)
  | [] => m
  | item :: rest => groupGo (addToGroup m item.seller_id (entryOf item)) rest

/-- sellerProducts: group the order's items by seller, as the forEach over
orderData.order_items does. -/
def sellerProducts (items : List NotifItem) : List (String × List NotifEntry) :=
  groupGo [] items

/-- Look a seller's accumulated entry list up in the group association list
(empty when the seller has no group yet); proof-side view of the Map. -/
def lookupGroup (m : List (String × List NotifEntry)) (s : String) :
    List NotifEntry :=
  match m.find? (fun p => p.1 == s) with
  | some p => p.2
  | none => []

/-- The comma-separated product list inside a notification message. -/
def productListStr (ps : List NotifEntry) : String :=
  String.intercalate ", "
    (ps.map (fun p => p.name ++ " (Qty: " ++ toString p.quantity ++ ")"))

/-- The message composed for one seller. -/
def notifMessage (orderId : String) (od : OrderData) (ps : List NotifEntry) :
    String :=
  "New order received! Order #" ++ orderId.take 8 ++ " - Products: " ++
    productListStr ps ++ ". Total: $" ++ toString od.total_amount ++
    ". Address: " ++ od.shipping_address ++ ". Please assign a driver for delivery."

/-- The notification rows the function builds: one per group, in group
order. -/
def mkNotifications (orderId : String) (od : OrderData) :
    List SellerNotification :=
  (sellerProducts od.order_items).map (fun p =>
    ⟨p.1, orderId, notifMessage orderId od p.2, false⟩)

/-- The notify-sellers handler body: the order lookup by id either fails (the
function throws and answers 500 with nothing written) or yields the order with
its items, in which case the built notifications are inserted and the function
answers 200.  Returns the HTTP status and the seller_notifications table after
the call. -/
def notifySellers (orderId : String) (orderLookup : Option OrderData)
    (db : List SellerNotification) : Nat × List SellerNotification :=
  match orderLookup with
  | none => (500, db)
  | some od => (200, db ++ mkNotifications orderId od)

/-- A row of the orders table as the payment webhook touches it. -/
structure WOrder where
  id : String
  stripe_session_id : String
  status : String
  updated_at : String
deriving Repr, DecidableEq

/-- The Stripe webhook handler.  sigOk is the verdict of signature
verification (constructEvent throws on a bad signature, answered with 400 and
no store access).  For a checkout.session.completed event the handler sets
status "paid" and updated_at on the rows matching the session id, then
re-reads the matching row with .single(), which fails unless exactly one row
matches — a failure throws into the catch block, answered with 500; on success
notify-sellers is invoked with the order's id (its error is only logged) and
the handler answers 200.  Any other event type is answered 200 untouched.
Returns the HTTP status, the orders table after the call, and the order ids
passed to notify-sellers. -/
def handleWebhook (sigOk : Bool) (eventType : String) (sessionId : String)
    (now : String) (orders : List WOrder) : Nat × List WOrder × List String :=
  if sigOk then
    if eventType == "checkout.session.completed" then
      let updated := orders.map (fun o =>
        if o.stripe_session_id == sessionId then
          { o with status := "paid", updated_at := now }
        else o)
      match updated.filter (fun o => o.stripe_session_id == sessionId) with
      | [o] => (200, updated, [o.id])
      | _ => (500, updated, [])
    else (200, orders, [])
  else (400, orders, [])

/-- A sample product, for concrete instantiations. -/
def appleProduct : Product := ⟨"prod-1", "Apple", 5, "seller-1"⟩

/-- A second sample product owned by a different seller. -/
def bananaProduct : Product := ⟨"prod-2", "Banana", 3, "seller-2"⟩

/-- A sample two-line cart. -/
def sampleCart : List CartItem :=
  [⟨"line-1", "prod-1", 2, appleProduct⟩, ⟨"line-2", "prod-2", 1, bananaProduct⟩]

/-- An empty persistent store. -/
def emptyStore : Store := ⟨[], [], []⟩

/-- The order data matching sampleCart, as notify-sellers would load it. -/
def sampleOrderData : OrderData :=
  ⟨13, "123 Main St",
   [⟨2, 5, "prod-1", "Apple", "seller-1"⟩, ⟨1, 3, "prod-2", "Banana", "seller-2"⟩]⟩

/-- A sample orders table for the webhook, holding one paid-by-card order. -/
def sampleWOrders : List WOrder := [⟨"order-1", "sess-1", "pending", "t0"⟩]

section Lemmas

/-- Folding addition of f over a list from n gives n plus the sum of the
mapped list. -/
theorem foldl_add_int {α : Type} (f : α → Int) :
    ∀ (l : List α) (n : Int), l.foldl (fun t a => t + f a) n = n + (l.map f).sum
  | [], n => by simp
  | a :: l, n => by
      rw [List.foldl_cons, foldl_add_int f l (n + f a), List.map_cons,
        List.sum_cons]
      ring

/-- cartCount is the sum of the quantities. -/
theorem cartCount_eq_sum (cart : List CartItem) :
    cartCount cart = (cart.map (fun item => item.quantity)).sum := by
  simpa [cartCount] using foldl_add_int (fun item => item.quantity) cart 0

/-- cartTotal is the sum of price times quantity over the lines. -/
theorem cartTotal_eq_sum (cart : List CartItem) :
    cartTotal cart
      = (cart.map (fun item => item.product.price * item.quantity)).sum := by
  simpa [cartTotal] using
    foldl_add_int (fun item => item.product.price * item.quantity) cart 0

end Lemmas

/-- C6: for an authenticated user, updateQuantity with a non-positive quantity
returns exactly the state removeFromCart returns: the line for that product is
deleted (the cart is filtered on the product id) and nothing else changes. -/
theorem updateQuantity_nonpos_removes (uid pid : String) (q : Int)
    (cart : List CartItem) (hq : q ≤ 0) :
    updateQuantity (some uid) pid q cart = removeFromCart (some uid) pid cart
    ∧ (removeFromCart (some uid) pid cart).cart
        = cart.filter (fun item => !(item.product_id == pid)) := by
  refine ⟨?_, rfl⟩
  simp [updateQuantity, hq]

/-- Witness for C6 at a concrete cart and quantity 0. -/
theorem updateQuantity_nonpos_removes_witness :
    updateQuantity (some "u") "prod-1" 0 sampleCart
      = removeFromCart (some "u") "prod-1" sampleCart
    ∧ (removeFromCart (some "u") "prod-1" sampleCart).cart
        = sampleCart.filter (fun item => !(item.product_id == "prod-1")) :=
  updateQuantity_nonpos_removes "u" "prod-1" 0 sampleCart (by decide)

/-- C9: for an authenticated user and a positive quantity, updateQuantity on a
product with no cart line leaves the cart unchanged and reports nothing. -/
theorem updateQuantity_absent_noop (uid pid : String) (q : Int)
    (cart : List CartItem) (hq : 0 < q)
    (habs : ∀ item ∈ cart, item.product_id ≠ pid) :
    updateQuantity (some uid) pid q cart = ⟨cart, false⟩ := by
  unfold updateQuantity
  rw [if_neg (by omega : ¬ q ≤ 0)]
  have h1 : cart.map (fun item =>
      if item.product_id == pid then { item with quantity := q } else item)
      = cart.map id :=
    List.map_congr_left (fun a ha => by simp [habs a ha])
  rw [h1, List.map_id]

/-- Witness for C9: quantity 3 on a product absent from the sample cart. -/
theorem updateQuantity_absent_noop_witness :
    updateQuantity (some "u") "prod-9" 3 sampleCart = ⟨sampleCart, false⟩ :=
  updateQuantity_absent_noop "u" "prod-9" 3 sampleCart (by decide) (by decide)

/-- C10: with no authenticated user, removeFromCart, updateQuantity and
clearCart return the cart untouched with no error reported, while addToCart
also leaves the cart untouched but does report the failure. -/
theorem unauthenticated_ops_silent (products : List Product)
    (pid fid : String) (q : Int) (cart : List CartItem) :
    removeFromCart none pid cart = ⟨cart, false⟩
    ∧ updateQuantity none pid q cart = ⟨cart, false⟩
    ∧ clearCart none cart = ⟨cart, false⟩
    ∧ (addToCart products none pid fid cart).cart = cart
    ∧ (addToCart products none pid fid cart).errorReported = true :=
  ⟨rfl, rfl, rfl, rfl, rfl⟩

/-- C7: in every cart state reachable by a sequence of addToCart,
updateQuantity and removeFromCart calls, cartCount equals the sum of the line
quantities and cartTotal equals the sum of price times quantity over the
lines. -/
theorem runOps_count_total (products : List Product) (uid : String)
    (ops : List CartOp) :
    cartCount (runOps products (some uid) ops [])
      = ((runOps products (some uid) ops []).map (fun item => item.quantity)).sum
    ∧ cartTotal (runOps products (some uid) ops [])
      = ((runOps products (some uid) ops []).map
          (fun item => item.product.price * item.quantity)).sum :=
  ⟨cartCount_eq_sum _, cartTotal_eq_sum _⟩

/-- C1: placing a cash order from a non-empty cart appends exactly one order
row with status "pending", total_amount the cart's total and the given
shipping address; appends exactly one order item per cart line, snapshotting
that line's product price; invokes notify-sellers with the new order id; and
clears the cart, reporting success. -/
theorem placeCashOrder_creates_order (uid oid addr : String)
    (cart : List CartItem) (store : Store) (hne : cart ≠ []) :
    (placeCashOrder (some uid) oid addr true true cart store).store.orders
      = store.orders ++ [⟨oid, uid, cartTotal cart, addr, "cash", "pending"⟩]
    ∧ (placeCashOrder (some uid) oid addr true true cart store).store.order_items
      = store.order_items ++ cart.map (fun item =>
          ⟨oid, item.product_id, item.quantity, item.product.price⟩)
    ∧ (placeCashOrder (some uid) oid addr true true cart store).store.order_items.length
      = store.order_items.length + cart.length
    ∧ (placeCashOrder (some uid) oid addr true true cart store).store.notified
      = store.notified ++ [oid]
    ∧ (placeCashOrder (some uid) oid addr true true cart store).cart = []
    ∧ (placeCashOrder (some uid) oid addr true true cart store).success = true
    ∧ (placeCashOrder (some uid) oid addr true true cart store).errorToast = false := by
  refine ⟨rfl, rfl, ?_, rfl, rfl, rfl, rfl⟩
  simp [placeCashOrder]

/-- Witness for C1 at the sample cart over the empty store. -/
theorem placeCashOrder_creates_order_witness :
    (placeCashOrder (some "u") "order-7" "123 Main St" true true sampleCart
        emptyStore).store.orders
      = emptyStore.orders
        ++ [⟨"order-7", "u", cartTotal sampleCart, "123 Main St", "cash", "pending"⟩]
    ∧ (placeCashOrder (some "u") "order-7" "123 Main St" true true sampleCart
        emptyStore).cart = [] :=
  ⟨(placeCashOrder_creates_order "u" "order-7" "123 Main St" sampleCart
      emptyStore (by decide)).1,
   (placeCashOrder_creates_order "u" "order-7" "123 Main St" sampleCart
      emptyStore (by decide)).2.2.2.2.1⟩

/-- C4: when the order insert succeeds and the order-items insert is rejected,
the handler reports failure, yet the already-created order row stays in the
store with no order items for it, notify-sellers is not invoked and the cart
is not cleared. -/
theorem placeCashOrder_partial_failure (uid oid addr : String)
    (cart : List CartItem) (store : Store)
    (hfresh : ∀ item ∈ store.order_items, item.order_id ≠ oid) :
    (placeCashOrder (some uid) oid addr true false cart store).errorToast = true
    ∧ (placeCashOrder (some uid) oid addr true false cart store).success = false
    ∧ (placeCashOrder (some uid) oid addr true false cart store).store.orders
      = store.orders ++ [⟨oid, uid, cartTotal cart, addr, "cash", "pending"⟩]
    ∧ (placeCashOrder (some uid) oid addr true false cart store).store.order_items
      = store.order_items
    ∧ (∀ item ∈ (placeCashOrder (some uid) oid addr true false cart
          store).store.order_items, item.order_id ≠ oid)
    ∧ (placeCashOrder (some uid) oid addr true false cart store).store.notified
      = store.notified
    ∧ (placeCashOrder (some uid) oid addr true false cart store).cart = cart :=
  ⟨rfl, rfl, rfl, rfl, hfresh, rfl, rfl⟩

/-- Witness for C4 at the sample cart over the empty store. -/
theorem placeCashOrder_partial_failure_witness :
    (placeCashOrder (some "u") "order-8" "123 Main St" true false sampleCart
        emptyStore).store.orders
      = emptyStore.orders
        ++ [⟨"order-8", "u", cartTotal sampleCart, "123 Main St", "cash", "pending"⟩]
    ∧ (placeCashOrder (some "u") "order-8" "123 Main St" true false sampleCart
        emptyStore).store.order_items = emptyStore.order_items
    ∧ (placeCashOrder (some "u") "order-8" "123 Main St" true false sampleCart
        emptyStore).errorToast = true :=
  ⟨(placeCashOrder_partial_failure "u" "order-8" "123 Main St" sampleCart
      emptyStore (by decide)).2.2.1,
   (placeCashOrder_partial_failure "u" "order-8" "123 Main St" sampleCart
      emptyStore (by decide)).2.2.2.1,
   (placeCashOrder_partial_failure "u" "order-8" "123 Main St" sampleCart
      emptyStore (by decide)).1⟩

/-- C5: for an authenticated user, addToCart bumps the existing line's
quantity by exactly one when a line for the product exists (each product has
at most one line — the store enforces UNIQUE(user_id, product_id) — and stored
quantities are at least 1), inserts a fresh line at quantity 1 otherwise, and
with no authenticated user reports the failure and mutates nothing. -/
theorem addToCart_spec (products : List Product) (uid pid fid : String)
    (cart : List CartItem)
    (hnd : (cart.map CartItem.product_id).Nodup)
    (hpos : ∀ item ∈ cart, 1 ≤ item.quantity) :
    (∀ item, cart.find? (fun it => it.product_id == pid) = some item →
        addToCart products (some uid) pid fid cart
          = ⟨cart.map (fun it =>
              if it.product_id == pid then { it with quantity := it.quantity + 1 }
              else it), false⟩)
    ∧ (cart.find? (fun it => it.product_id == pid) = none →
        ∀ p, products.find? (fun q => q.id == pid) = some p →
          addToCart products (some uid) pid fid cart
            = ⟨cart ++ [⟨fid, pid, 1, p⟩], false⟩)
    ∧ addToCart products none pid fid cart = ⟨cart, true⟩ := by
  refine ⟨?_, ?_, rfl⟩
  · intro item hfind
    have hmem : item ∈ cart := List.mem_of_find?_eq_some hfind
    have hpid : item.product_id = pid := by
      simpa using List.find?_some hfind
    have hq : ¬ item.quantity + 1 ≤ 0 := by
      have := hpos item hmem
      omega
    unfold addToCart
    rw [hfind]
    show updateQuantity (some uid) pid (item.quantity + 1) cart = _
    unfold updateQuantity
    rw [if_neg hq]
    refine congrArg (fun l => CartResult.mk l false) ?_
    apply List.map_congr_left
    intro a ha
    by_cases hc : (a.product_id == pid) = true
    · have haeq : a = item := by
        refine List.inj_on_of_nodup_map hnd ha hmem ?_
        rw [hpid]
        exact beq_iff_eq.mp hc
      simp [hc, haeq]
    · simp [hc]
  · intro hnone p hp
    unfold addToCart
    rw [hnone, hp]

/-- Witness for C5: adding prod-1, already present at quantity 2 in the sample
cart, yields the same cart with that line at quantity 3. -/
theorem addToCart_spec_witness :
    addToCart [appleProduct, bananaProduct] (some "u") "prod-1" "line-9"
        sampleCart
      = ⟨[⟨"line-1", "prod-1", 3, appleProduct⟩,
          ⟨"line-2", "prod-2", 1, bananaProduct⟩], false⟩ := by
  have h := (addToCart_spec [appleProduct, bananaProduct] "u" "prod-1" "line-9"
      sampleCart (by decide) (by decide)).1
    ⟨"line-1", "prod-1", 2, appleProduct⟩ (by decide)
  rw [h]
  decide

section GroupingLemmas

/-- Membership of a seller id among the group keys matches the any-test the
source performs on the Map. -/
theorem any_fst_eq (m : List (String × List NotifEntry)) (sid : String) :
    m.any (fun p => p.1 == sid) = true ↔ sid ∈ m.map Prod.fst := by
  rw [List.any_eq_true]
  constructor
  · rintro ⟨x, hx, hbeq⟩
    exact (beq_iff_eq.mp hbeq) ▸ List.mem_map_of_mem Prod.fst hx
  · intro h
    rcases List.mem_map.mp h with ⟨x, hx, hfst⟩
    exact ⟨x, hx, beq_iff_eq.mpr hfst⟩

/-- With pairwise-distinct keys, find? on a member's key returns that
member. -/
theorem find?_fst_of_mem {m : List (String × List NotifEntry)}
    {p : String × List NotifEntry}
    (hnd : (m.map Prod.fst).Nodup) (hp : p ∈ m) :
    m.find? (fun q => q.1 == p.1) = some p := by
  induction m with
  | nil => cases hp
  | cons a t ih =>
    rw [List.map_cons, List.nodup_cons] at hnd
    rcases List.mem_cons.mp hp with h | h
    · subst h
      exact List.find?_cons_of_pos t (by simp)
    · have hne : ¬ ((a.1 == p.1) = true) := by
        intro hc
        exact hnd.1 ((beq_iff_eq.mp hc) ▸ List.mem_map_of_mem Prod.fst h)
      rw [List.find?_cons_of_neg t hne]
      exact ih hnd.2 h

/-- addToGroup keeps the keys when the seller already has a group, and
appends the seller otherwise. -/
theorem addToGroup_keys (m : List (String × List NotifEntry)) (sid : String)
    (e : NotifEntry) :
    (addToGroup m sid e).map Prod.fst
      = if sid ∈ m.map Prod.fst then m.map Prod.fst
        else m.map Prod.fst ++ [sid] := by
  unfold addToGroup
  by_cases h : sid ∈ m.map Prod.fst
  · rw [if_pos ((any_fst_eq m sid).mpr h), if_pos h, List.map_map]
    exact List.map_congr_left (fun p _ => by
      simp only [Function.comp_apply]
      split <;> rfl)
  · rw [if_neg (fun hc => h ((any_fst_eq m sid).mp hc)), if_neg h,
      List.map_append]
    rfl

/-- addToGroup preserves distinctness of the keys. -/
theorem addToGroup_nodup {m : List (String × List NotifEntry)} {sid : String}
    {e : NotifEntry} (hnd : (m.map Prod.fst).Nodup) :
    ((addToGroup m sid e).map Prod.fst).Nodup := by
  rw [addToGroup_keys]
  by_cases h : sid ∈ m.map Prod.fst
  · rwa [if_pos h]
  · rw [if_neg h]
    exact List.nodup_append.mpr
      ⟨hnd, List.nodup_singleton sid,
       fun a ha hb => h ((List.mem_singleton.mp hb) ▸ ha)⟩

/-- What addToGroup does to each seller's accumulated list: the entry is
appended to the target seller's list and every other list is unchanged. -/
theorem lookupGroup_addToGroup (m : List (String × List NotifEntry))
    (sid : String) (e : NotifEntry) (s : String)
    (hnd : (m.map Prod.fst).Nodup) :
    lookupGroup (addToGroup m sid e) s
      = lookupGroup m s ++ (if s = sid then [e] else []) := by
  unfold addToGroup lookupGroup
  by_cases h : sid ∈ m.map Prod.fst
  · rw [if_pos ((any_fst_eq m sid).mpr h), List.find?_map]
    have hcomp : ((fun p : String × List NotifEntry => p.1 == s) ∘
        (fun p => if p.1 == sid then (p.1, p.2 ++ [e]) else p))
        = fun p => p.1 == s := by
      funext p
      simp only [Function.comp_apply]
      split <;> rfl
    rw [hcomp]
    cases hfind : m.find? (fun p => p.1 == s) with
    | none =>
      have hsne : s ≠ sid := by
        intro heq
        subst heq
        rcases List.mem_map.mp h with ⟨x, hx, hfst⟩
        exact List.find?_eq_none.mp hfind x hx (beq_iff_eq.mpr hfst)
      simp [hsne]
    | some q =>
      have hq1 : q.1 = s := by simpa using List.find?_some hfind
      by_cases hs : s = sid
      · simp [hq1, hs]
      · have hne : ¬ q.1 = sid := fun hEq => hs (hq1.symm.trans hEq)
        simp [hne, hs]
  · rw [if_neg (fun hc => h ((any_fst_eq m sid).mp hc)), List.find?_append]
    cases hfind : m.find? (fun p => p.1 == s) with
    | some q =>
      have hq1 : q.1 = s := by simpa using List.find?_some hfind
      have hsne : s ≠ sid := by
        intro heq
        exact h (heq ▸ hq1 ▸
          List.mem_map_of_mem Prod.fst (List.mem_of_find?_eq_some hfind))
      simp [hsne]
    | none =>
      by_cases hs : s = sid
      · simp [hs]
      · have : ¬ ((sid == s) = true) := fun hc => hs (beq_iff_eq.mp hc).symm
        simp [this, hs]

/-- The grouping loop keeps the keys pairwise distinct. -/
theorem groupGo_keys_nodup :
    ∀ (items : List NotifItem) (m : List (String × List NotifEntry)),
      (m.map Prod.fst).Nodup → (((groupGo m items)).map Prod.fst).Nodup
  | [], _, h => h
  | _ :: rest, _, h => groupGo_keys_nodup rest _ (addToGroup_nodup h)

/-- The keys after the grouping loop are the starting keys plus the sellers
occurring in the processed items. -/
theorem groupGo_mem_keys :
    ∀ (items : List NotifItem) (m : List (String × List NotifEntry))
      (s : String),
      s ∈ (groupGo m items).map Prod.fst
        ↔ s ∈ m.map Prod.fst ∨ s ∈ items.map NotifItem.seller_id
  | [], m, s => by simp [groupGo]
  | it :: rest, m, s => by
    rw [groupGo, groupGo_mem_keys rest _ s, addToGroup_keys]
    by_cases h : it.seller_id ∈ m.map Prod.fst
    · rw [if_pos h]
      simp only [List.map_cons, List.mem_cons]
      constructor
      · tauto
      · rintro (hs | heq | hs)
        · tauto
        · exact Or.inl (heq ▸ h)
        · tauto
    · rw [if_neg h]
      simp only [List.mem_append, List.mem_singleton, List.map_cons,
        List.mem_cons]
      tauto

/-- After the grouping loop, each seller's list is its starting list followed
by the entries of that seller's items, in item order. -/
theorem groupGo_lookup :
    ∀ (items : List NotifItem) (m : List (String × List NotifEntry)),
      (m.map Prod.fst).Nodup → ∀ (s : String),
      lookupGroup (groupGo m items) s
        = lookupGroup m s
          ++ (items.filter (fun it => it.seller_id == s)).map entryOf
  | [], m, _, s => by simp [groupGo]
  | it :: rest, m, h, s => by
    rw [groupGo, groupGo_lookup rest _ (addToGroup_nodup h) s,
      lookupGroup_addToGroup m it.seller_id (entryOf it) s h,
      List.filter_cons]
    by_cases hc : (it.seller_id == s) = true
    · rw [if_pos hc]
      have hs : s = it.seller_id := (beq_iff_eq.mp hc).symm
      simp [hs]
    · rw [if_neg hc]
      have hs : s ≠ it.seller_id := fun hEq => hc (beq_iff_eq.mpr hEq.symm)
      simp [hs]

/-- sellerProducts groups exactly: distinct keys, one key per seller occurring
in the items, and each group holding precisely that seller's entries. -/
theorem sellerProducts_content (items : List NotifItem) :
    ((sellerProducts items).map Prod.fst).Nodup
    ∧ (∀ s, s ∈ (sellerProducts items).map Prod.fst
        ↔ s ∈ items.map NotifItem.seller_id)
    ∧ ∀ p ∈ sellerProducts items,
        p.2 = (items.filter (fun it => it.seller_id == p.1)).map entryOf := by
  have hnd : ((sellerProducts items).map Prod.fst).Nodup :=
    groupGo_keys_nodup items [] (by simp)
  refine ⟨hnd, fun s => ?_, fun p hp => ?_⟩
  · simpa using groupGo_mem_keys items [] s
  · have h1 := groupGo_lookup items [] (by simp) p.1
    have h2 : lookupGroup (sellerProducts items) p.1 = p.2 := by
      unfold lookupGroup
      rw [find?_fst_of_mem hnd hp]
    have h3 : lookupGroup (sellerProducts items) p.1
        = lookupGroup ([] : List (String × List NotifEntry)) p.1
          ++ (items.filter (fun it => it.seller_id == p.1)).map entryOf := h1
    rw [h2] at h3
    simpa [lookupGroup] using h3

end GroupingLemmas

/-- C2: notify-sellers inserts exactly one notification row per distinct
seller among the order's line items — the inserted rows' seller ids are
pairwise distinct and are exactly the sellers occurring in the items — and
each row's message is composed from precisely that seller's items (their
product names and quantities). -/
theorem notifySellers_one_per_seller (oid : String) (od : OrderData)
    (db : List SellerNotification) :
    (notifySellers oid (some od) db).2 = db ++ mkNotifications oid od
    ∧ ((mkNotifications oid od).map SellerNotification.seller_id).Nodup
    ∧ (∀ s, s ∈ (mkNotifications oid od).map SellerNotification.seller_id
        ↔ s ∈ od.order_items.map NotifItem.seller_id)
    ∧ ∀ n ∈ mkNotifications oid od,
        n.order_id = oid ∧ n.read = false
        ∧ n.message = notifMessage oid od
            ((od.order_items.filter
                (fun it => it.seller_id == n.seller_id)).map entryOf) := by
  obtain ⟨hnd, hmem, hcontent⟩ := sellerProducts_content od.order_items
  have hmap : (mkNotifications oid od).map SellerNotification.seller_id
      = (sellerProducts od.order_items).map Prod.fst := by
    rw [mkNotifications, List.map_map]
    rfl
  refine ⟨rfl, by rw [hmap]; exact hnd, fun s => by rw [hmap]; exact hmem s, ?_⟩
  intro n hn
  rw [mkNotifications] at hn
  rcases List.mem_map.mp hn with ⟨p, hp, hmk⟩
  subst hmk
  refine ⟨rfl, rfl, ?_⟩
  show notifMessage oid od p.2 = _
  rw [hcontent p hp]

/-- Witness for C2 at the sample two-seller order over an empty table. -/
theorem notifySellers_one_per_seller_witness :
    (notifySellers "order-7" (some sampleOrderData) []).2
      = [] ++ mkNotifications "order-7" sampleOrderData
    ∧ ("seller-1" ∈ (mkNotifications "order-7" sampleOrderData).map
          SellerNotification.seller_id
        ↔ "seller-1" ∈ sampleOrderData.order_items.map NotifItem.seller_id) :=
  ⟨(notifySellers_one_per_seller "order-7" sampleOrderData []).1,
   (notifySellers_one_per_seller "order-7" sampleOrderData []).2.2.1 "seller-1"⟩

/-- C3: a second invocation of notify-sellers with the same order id appends
the same non-empty batch of notification rows again: the table ends with two
copies of the batch, its length grows by twice the batch size, and every row
the second call inserts already exists after the first. -/
theorem notifySellers_not_idempotent (oid : String) (od : OrderData)
    (db : List SellerNotification)
    (hn : 0 < (mkNotifications oid od).length) :
    (notifySellers oid (some od) ((notifySellers oid (some od) db).2)).2
      = (notifySellers oid (some od) db).2 ++ mkNotifications oid od
    ∧ (notifySellers oid (some od) ((notifySellers oid (some od) db).2)).2.length
      = db.length + 2 * (mkNotifications oid od).length
    ∧ ∀ n ∈ mkNotifications oid od, n ∈ (notifySellers oid (some od) db).2 := by
  refine ⟨rfl, ?_, fun n hn' => ?_⟩
  · show (db ++ mkNotifications oid od ++ mkNotifications oid od).length = _
    simp [List.length_append]
    ring
  · exact List.mem_append_right db hn'

/-- Witness for C3: on the sample two-seller order the first call inserts two
rows and the second call brings the table to four rows. -/
theorem notifySellers_not_idempotent_witness :
    (notifySellers "order-7" (some sampleOrderData)
        ((notifySellers "order-7" (some sampleOrderData) []).2)).2.length = 4 := by
  have h := (notifySellers_not_idempotent "order-7" sampleOrderData []
    (by decide)).2.1
  rw [h]
  decide

/-- C8: assuming at most one order carries the payment session id (each
checkout session stores its identifier on the one order it created), the
webhook answers 400 with no store change when signature verification fails,
answers 500 with no store change when the order lookup fails (no row matches
the session id, so the preceding status update also matched nothing), and
answers 200 on the successful path. -/
theorem handleWebhook_error_paths (eventType sessionId now : String)
    (orders : List WOrder)
    (huniq : (orders.filter
        (fun o => o.stripe_session_id == sessionId)).length ≤ 1) :
    handleWebhook false eventType sessionId now orders = (400, orders, [])
    ∧ ((orders.filter (fun o => o.stripe_session_id == sessionId)).length ≠ 1 →
        handleWebhook true "checkout.session.completed" sessionId now orders
          = (500, orders, []))
    ∧ ∀ o, orders.filter (fun o' => o'.stripe_session_id == sessionId) = [o] →
        (handleWebhook true "checkout.session.completed" sessionId now
            orders).1 = 200 := by
  have hfm : (orders.map (fun o => if o.stripe_session_id == sessionId then
        { o with status := "paid", updated_at := now } else o)).filter
        (fun o => o.stripe_session_id == sessionId)
      = (orders.filter (fun o => o.stripe_session_id == sessionId)).map
        (fun o => if o.stripe_session_id == sessionId then
          { o with status := "paid", updated_at := now } else o) := by
    rw [List.filter_map]
    congr 1
    apply List.filter_congr
    intro a _
    simp only [Function.comp_apply]
    split <;> rfl
  refine ⟨rfl, ?_, ?_⟩
  · intro hne1
    have hnil : orders.filter (fun o => o.stripe_session_id == sessionId)
        = [] := List.length_eq_zero.mp (by omega)
    have hnomatch := List.filter_eq_nil_iff.mp hnil
    have hmapid : orders.map (fun o =>
        if o.stripe_session_id == sessionId then
          { o with status := "paid", updated_at := now } else o) = orders := by
      have hpt : ∀ a ∈ orders, (if a.stripe_session_id == sessionId then
          { a with status := "paid", updated_at := now } else a) = a := by
        intro a ha
        rw [if_neg (hnomatch a ha)]
      rw [List.map_congr_left hpt, List.map_id']
    unfold handleWebhook
    rw [if_pos (rfl : true = true),
      if_pos (beq_self_eq_true "checkout.session.completed")]
    dsimp only
    rw [hmapid, hnil]
  · intro o ho
    have h1 : (orders.map (fun o => if o.stripe_session_id == sessionId then
        { o with status := "paid", updated_at := now } else o)).filter
        (fun o => o.stripe_session_id == sessionId)
        = [if o.stripe_session_id == sessionId then
            { o with status := "paid", updated_at := now } else o] := by
      rw [hfm, ho, List.map_cons, List.map_nil]
    unfold handleWebhook
    rw [if_pos (rfl : true = true),
      if_pos (beq_self_eq_true "checkout.session.completed")]
    dsimp only
    rw [h1]

/-- Witness for C8: one stored order with session sess-1; a bad signature
gives 400 untouched, an unknown session gives 500 untouched, the matching
session gives 200. -/
theorem handleWebhook_error_paths_witness :
    handleWebhook false "checkout.session.completed" "sess-1" "t1" sampleWOrders
      = (400, sampleWOrders, [])
    ∧ handleWebhook true "checkout.session.completed" "sess-9" "t1" sampleWOrders
      = (500, sampleWOrders, [])
    ∧ (handleWebhook true "checkout.session.completed" "sess-1" "t1"
        sampleWOrders).1 = 200 :=
  ⟨(handleWebhook_error_paths "checkout.session.completed" "sess-1" "t1"
      sampleWOrders (by decide)).1,
   (handleWebhook_error_paths "checkout.session.completed" "sess-9" "t1"
      sampleWOrders (by decide)).2.1 (by decide),
   (handleWebhook_error_paths "checkout.session.completed" "sess-1" "t1"
      sampleWOrders (by decide)).2.2 ⟨"order-1", "sess-1", "pending", "t0"⟩
     (by decide)⟩

end QuickCheckout
